import Mathlib

/-!
Shallow embedding of the py-books-scraper repository
(src/scrape_books.py and src/export_first_10.py).

The HTTP and HTML-parsing libraries are external capabilities (the spec
treats them as "fetch(url) -> text" and "parse(html) -> tree with selector
queries"), so fetched pages are modelled as the results of the selector
queries the code actually performs, and the fetcher is a parameter of the
orchestrator.  Everything the repository itself computes — price
normalization, field extraction from the selector results, dedup check,
commit step, page loop, export query — is translated function by function
from the Python source.

Numeric prices are modelled as exact rationals: the Python code parses the
stripped price text with float(); on the strings that survive the
stripping step (digits and periods only) float() succeeds exactly when the
string has at least one digit and at most one period, and the value is the
usual decimal value.
-/

namespace BooksScraper

/-- Base address of the site, from scrape_books.py line 15. -/
def BASE_URL : String := "https://books.toscrape.com/"

/-- Fixed rating label map, from scrape_books.py lines 20-26
(Python dict modelled as an association list; membership and
indexing become List.lookup). -/
def RATING_MAP : List (String × Nat) :=
  [("One", 1), ("Two", 2), ("Three", 3), ("Four", 4), ("Five", 5)]

/-- Value of a run of decimal digit characters, most significant first
(models what float() does with the integer part of the stripped text). -/
def digitsToNat (cs : List Char) : Nat :=
  cs.foldl (fun acc c => acc * 10 + (c.toNat - ('0').toNat)) 0

/-- Python re.sub applied with the pattern that deletes every character
other than a digit or a period, from scrape_books.py line 75. -/
def keepPriceChars (s : String) : String :=
  String.mk (s.data.filter (fun c => c.isDigit || c == '.'))

/-- Digit run before the first period of the string (the integer part
float() reads). -/
def parteEntera (s : String) : List Char :=
  s.data.takeWhile (fun c => !(c == '.'))

/-- Digit run after the first period of the string (the fraction part
float() reads). -/
def parteFraccion (s : String) : List Char :=
  (s.data.dropWhile (fun c => !(c == '.'))).drop 1

/-- Python float() restricted to strings made of digits and periods only
(the only strings the scraper ever passes to it, since the input was
filtered by keepPriceChars): the parse succeeds exactly when the string
has at least one digit and at most one period, and the value is the
decimal value integer-part.fraction-part, as an exact rational. -/
def floatOfStripped (s : String) : Option ℚ :=
  if s.data.any Char.isDigit && s.data.count '.' ≤ 1 then
    some ((digitsToNat (parteEntera s) : ℚ) +
      (digitsToNat (parteFraccion s) : ℚ) / (10 : ℚ) ^ (parteFraccion s).length)
  else
    none

/-- Translation of normalizar_precio, scrape_books.py lines 67-83.
Python "if not precio_str" is true for both None and the empty string;
a failed float() parse is caught and becomes None. -/
def normalizar_precio (precio_str : Option String) : Option ℚ :=
  match precio_str with
  | none => none
  | some s =>
    if s.isEmpty then none
    else if (keepPriceChars s).isEmpty then none
    else floatOfStripped (keepPriceChars s)

/-- View of an HTML element as the scraper uses it: its attribute map
(get / [] become List.lookup), its multi-valued class attribute, and its
stripped text (get_text with strip=True becomes String.trim of text). -/
structure Tag where
  attrs : List (String × String)
  classes : List String
  text : String
deriving DecidableEq, Repr

/-- Attribute access tag.get(k) — None when the attribute is missing. -/
def atributo (t : Tag) (k : String) : Option String :=
  t.attrs.lookup k

/-- View of one article.product_pod unit of a catalogue page: the result
of each select_one query the loop body of parsear_libros_catalogo
performs on it (None when the selector matches nothing). -/
structure Article where
  h3_a : Option Tag
  p_price_color : Option Tag
  p_instock_availability : Option Tag
  p_star_rating : Option Tag
  div_image_container_img : Option Tag
deriving DecidableEq, Repr

/-- Partial record produced for one catalogue unit,
scrape_books.py lines 151-160. -/
structure PartialBook where
  titulo : String
  precio : Option ℚ
  disponibilidad : Option String
  rating : Option Nat
  url_imagen : Option String
  detail_url : Option String
deriving DecidableEq, Repr

/-- Model of urllib.parse.urljoin for the cases the scraper exercises:
an absolute reference wins, a root-relative path replaces everything
after the site root, and any other reference is resolved against the
base with its last segment removed (BASE_URL ends in a slash, so that
is string concatenation). -/
def urljoin (base rel : String) : String :=
  if rel.startsWith "http://" || rel.startsWith "https://" then rel
  else if rel.startsWith "/" then "https://books.toscrape.com" ++ rel
  else (base.dropRightWhile (fun c => !(c == '/'))) ++ rel

/-- Rating scan of the loop at scrape_books.py lines 137-142: walk the
class list in order and take the first class that is a key of
RATING_MAP; None when no class matches. -/
def ratingDeClases (clases : List String) : Option Nat :=
  clases.findSome? (fun c => RATING_MAP.lookup c)

/-- Body of the per-article loop of parsear_libros_catalogo,
scrape_books.py lines 121-160.  Python truthiness of attribute values
makes an empty-string src or href count as missing. -/
def parsear_articulo (article : Article) : PartialBook :=
  let titulo := match article.h3_a with
    | some t => ((atributo t "title").getD "").trim
    | none => ""
  let precio_texto := article.p_price_color.map (fun t => t.text.trim)
  let disponibilidad_texto := article.p_instock_availability.map (fun t => t.text.trim)
  let rating := match article.p_star_rating with
    | some t => ratingDeClases t.classes
    | none => none
  let img_url := match article.div_image_container_img with
    | some t => match atributo t "src" with
      | some src => if src.isEmpty then none else some (urljoin BASE_URL src)
      | none => none
    | none => none
  let detail_url := match article.h3_a with
    | some t => match atributo t "href" with
      | some href => if href.isEmpty then none else some (urljoin BASE_URL href)
      | none => none
    | none => none
  { titulo := titulo
    precio := normalizar_precio precio_texto
    disponibilidad := disponibilidad_texto
    rating := rating
    url_imagen := img_url
    detail_url := detail_url }

/-- Translation of parsear_libros_catalogo, scrape_books.py lines
113-162: one record per article.product_pod unit, in document order. -/
def parsear_libros_catalogo (articles : List Article) : List PartialBook :=
  articles.map parsear_articulo

/-- View of the marker found by find(id="product_description") together
with the result of its find_next("p") query. -/
structure DescHeader where
  next_p : Option Tag
deriving DecidableEq, Repr

/-- View of one tr of the product-information table: its first th and
first td, None when absent. -/
structure TableRow where
  th : Option Tag
  td : Option Tag
deriving DecidableEq, Repr

/-- View of a detail page as parsear_detalle queries it: the description
marker (with its following paragraph), the striped table rows, and the
breadcrumb links in document order. -/
structure DetailPage where
  product_description : Option DescHeader
  tabla : Option (List TableRow)
  breadcrumb_links : List Tag
deriving DecidableEq, Repr

/-- Result record of parsear_detalle, scrape_books.py lines 205-209. -/
structure ParsedDetail where
  descripcion : Option String
  upc : Option String
  categoria : Option String
deriving DecidableEq, Repr

/-- Row scan of the UPC loop, scrape_books.py lines 189-197: rows
missing th or td are skipped, the first row whose th text is exactly
"UPC" wins and the loop breaks. -/
def buscarUpc (rows : List TableRow) : Option String :=
  rows.findSome? (fun row =>
    match row.th, row.td with
    | some th, some td => if th.text.trim == "UPC" then some (td.text.trim) else none
    | _, _ => none)

/-- Translation of parsear_detalle, scrape_books.py lines 165-209.
The category is the stripped text of the last breadcrumb link when
there are at least three of them, otherwise None. -/
def parsear_detalle (p : DetailPage) : ParsedDetail :=
  let descripcion := match p.product_description with
    | some hdr => hdr.next_p.map (fun t => t.text.trim)
    | none => none
  let upc := match p.tabla with
    | some rows => buscarUpc rows
    | none => none
  let categoria :=
    if 3 ≤ p.breadcrumb_links.length then
      p.breadcrumb_links.getLast?.map (fun t => t.text.trim)
    else none
  { descripcion := descripcion, upc := upc, categoria := categoria }

/-- One row of the libros table, scrape_books.py lines 50-61, without
the two server-assigned columns: the surrogate id is the row's
1-based position in the append-only list (AUTOINCREMENT), and the
creation timestamp is real time, outside this model. -/
structure StoredBook where
  titulo : String
  precio : Option ℚ
  disponibilidad : Option String
  rating : Option Nat
  url_imagen : Option String
  descripcion : Option String
  upc : Option String
  categoria : Option String
deriving DecidableEq, Repr

/-- Column order of the libros table as created by crear_conexion,
scrape_books.py lines 50-61. -/
def librosColumns : List String :=
  ["id", "titulo", "precio", "disponibilidad", "rating", "url_imagen",
   "descripcion", "upc", "categoria", "fecha_extraccion"]

/-- Translation of existe_libro, scrape_books.py lines 212-221.
Python "if not upc" is true for None and for the empty string; the SQL
equality upc = ? never matches rows whose upc is NULL. -/
def existe_libro (store : List StoredBook) (upc : Option String) : Bool :=
  match upc with
  | none => false
  | some u =>
    if u.isEmpty then false
    else store.any (fun b => b.upc == some u)

/-- Translation of insertar_libro, scrape_books.py lines 224-253:
append one row to the table. -/
def insertar_libro (store : List StoredBook) (libro : StoredBook) : List StoredBook :=
  store ++ [libro]

/-- Python truthiness of an optional string, as used by
"if upc and ..." (line 307) and "if detail_url:" (line 289). -/
def truthyStr : Option String → Bool
  | none => false
  | some s => !s.isEmpty

/-- Running state of main: the open store plus its two counters,
scrape_books.py lines 266-268. -/
structure RunState where
  store : List StoredBook
  total_insertados : Nat
  total_detalles_ok : Nat
deriving DecidableEq, Repr

/-- Commit block of main, scrape_books.py lines 306-316: skip when the
record's UPC is truthy and already stored, otherwise insert and count.
The sqlite error branch (lines 315-316) only logs, and the modelled
store never fails, so the insert branch always succeeds here. -/
def commitStep (st : RunState) (libro : StoredBook) : RunState :=
  if truthyStr libro.upc && existe_libro st.store libro.upc then st
  else { st with
          store := insertar_libro st.store libro
          total_insertados := st.total_insertados + 1 }

/-- Merge of the three detail fields into a partial record,
scrape_books.py lines 302-304 (detail_url is dropped: it is not one of
the inserted columns, lines 230-251). -/
def completar (libro : PartialBook)
    (descripcion upc categoria : Option String) : StoredBook :=
  { titulo := libro.titulo
    precio := libro.precio
    disponibilidad := libro.disponibilidad
    rating := libro.rating
    url_imagen := libro.url_imagen
    descripcion := descripcion
    upc := upc
    categoria := categoria }

/-- External capabilities of the pipeline: the fetcher (obtener_html:
None on transport failure, otherwise the body text) and the HTML
parser, which turns body text into the selector views defined above. -/
structure Caps where
  fetch : String → Option String
  soupCatalogo : String → List Article
  soupDetalle : String → DetailPage

/-- Detail phase of the per-book loop, scrape_books.py lines 283-300:
fetch the detail page when the record has a truthy detail address, and
parse it when the fetched body is truthy; in every other case the three
detail fields stay None and the detail counter is not bumped. -/
def obtenerDetalle (caps : Caps) (libro : PartialBook) : Option ParsedDetail :=
  match libro.detail_url with
  | some durl =>
    if durl.isEmpty then none
    else match caps.fetch durl with
      | some html =>
        if html.isEmpty then none
        else some (parsear_detalle (caps.soupDetalle html))
      | none => none
  | none => none

/-- Per-book body of main's inner loop, scrape_books.py lines 282-316:
enrich the record with the detail fields (or leave them absent), then
run the commit block. -/
def procesar_libro (caps : Caps) (st : RunState) (libro : PartialBook) : RunState :=
  match obtenerDetalle caps libro with
  | some d =>
    commitStep
      { st with total_detalles_ok := st.total_detalles_ok + 1 }
      (completar libro d.descripcion d.upc d.categoria)
  | none =>
    commitStep st (completar libro none none none)

/-- Translation of url_catalogo, scrape_books.py lines 103-110. -/
def url_catalogo (page : Nat) : String :=
  if page == 1 then BASE_URL
  else urljoin BASE_URL ("catalogue/page-" ++ toString page ++ ".html")

/-- Per-page body of main's outer loop, scrape_books.py lines 271-316:
a failed or falsy (empty) catalogue body skips the page entirely;
otherwise every extracted record is processed in order. -/
def procesar_pagina (caps : Caps) (st : RunState) (page : Nat) : RunState :=
  match caps.fetch (url_catalogo page) with
  | none => st
  | some html =>
    if html.isEmpty then st
    else
      (parsear_libros_catalogo (caps.soupCatalogo html)).foldl
        (procesar_libro caps) st

/-- Whole orchestrator run of main, scrape_books.py lines 256-320,
over the pages range(1, 4), starting from whatever rows the opened
database already holds. -/
def run_scraper (caps : Caps) (init : List StoredBook) : RunState :=
  [1, 2, 3].foldl (procesar_pagina caps) { store := init, total_insertados := 0, total_detalles_ok := 0 }

/-- SQLite value as it appears in a fetched row of the export query. -/
inductive Cell where
  | null : Cell
  | int : Int → Cell
  | real : ℚ → Cell
  | text : String → Cell
deriving DecidableEq, Repr

/-- Header names of the export query, in the order of its SELECT list,
export_first_10.py lines 12-21 (cur.description). -/
def exportHeaders : List String :=
  ["id", "titulo", "precio", "disponibilidad", "rating", "categoria", "upc"]

/-- Optional column rendered as a SQLite value (NULL when absent). -/
def cellDeOpcion {α : Type} (f : α → Cell) : Option α → Cell
  | none => Cell.null
  | some x => f x

/-- One fetched row of the export query, for the stored book with the
given surrogate id: the SELECT list id, titulo, precio, disponibilidad,
rating, categoria, upc of export_first_10.py lines 12-19. -/
def filaExport (id : Nat) (b : StoredBook) : List Cell :=
  [Cell.int id, Cell.text b.titulo,
   cellDeOpcion Cell.real b.precio,
   cellDeOpcion Cell.text b.disponibilidad,
   cellDeOpcion (fun n => Cell.int n) b.rating,
   cellDeOpcion Cell.text b.categoria,
   cellDeOpcion Cell.text b.upc]

/-- Result rows of the export query (ORDER BY id LIMIT 10): ids are the
1-based positions of the append-only table, so ordering by id is the
list order and LIMIT 10 is take 10. -/
def consultaPrimeros10 (store : List StoredBook) : List (List Cell) :=
  ((store.enum.map (fun p => filaExport (p.1 + 1) p.2)).take 10)

/-- Translation of exportar_primeros_10, export_first_10.py lines 8-35:
returns the (unchanged, read-only) store, the rows printed to the
console, and the rows written to the CSV file — the header row followed
by the data rows; the comma-separated UTF-8 rendering of each row is
delegated to the csv capability. -/
def exportar_primeros_10 (store : List StoredBook) :
    List StoredBook × List (List Cell) × List (List Cell) :=
  (store, consultaPrimeros10 store,
   (exportHeaders.map Cell.text) :: consultaPrimeros10 store)

/-- Two rows share a non-absent UPC (the spec's dedup invariant reads
on this relation: both UPCs equal and not NULL). -/
def comparteUpcNoAusente (a b : StoredBook) : Bool :=
  a.upc == b.upc && !(a.upc == none)

/-- Two rows share a truthy UPC: equal, not NULL and not the empty
string (the relation the code's dedup check actually controls). -/
def comparteUpcReal (a b : StoredBook) : Bool :=
  a.upc == b.upc && !(a.upc == none) && !(a.upc == some "")

/-- No two distinct rows of the table are related by c. -/
def sinDuplicadosPor (c : StoredBook → StoredBook → Bool) : List StoredBook → Bool
  | [] => true
  | x :: xs => xs.all (fun y => !c x y) && sinDuplicadosPor c xs

/-- Number of stored rows carrying the given UPC. -/
def cuentaUpc (store : List StoredBook) (u : String) : Nat :=
  store.countP (fun b => b.upc == some u)

/-- Sample row whose UPC is the empty string (reachable: parsear_detalle
returns the stripped text of an empty td as the UPC). -/
def libroUpcVacio : StoredBook :=
  { titulo := "Libro A", precio := none, disponibilidad := none,
    rating := none, url_imagen := none, descripcion := none,
    upc := some "", categoria := none }

/-- Sample row with an ordinary UPC. -/
def libroConUpcA : StoredBook :=
  { libroUpcVacio with titulo := "Libro B", upc := some "abc" }

/-- Sample partial record carrying a detail address. -/
def libroParcialDemo : PartialBook :=
  { titulo := "Libro C", precio := none, disponibilidad := none,
    rating := none, url_imagen := none,
    detail_url := some "https://books.toscrape.com/catalogue/x.html" }

/-- Capability bundle whose fetcher always fails at transport level. -/
def capsNada : Caps :=
  { fetch := fun _ => none
    soupCatalogo := fun _ => []
    soupDetalle := fun _ =>
      { product_description := none, tabla := none, breadcrumb_links := [] } }

/-- Capability bundle whose fetcher always succeeds with an empty body. -/
def capsCuerpoVacio : Caps :=
  { fetch := fun _ => some ""
    soupCatalogo := fun _ => []
    soupDetalle := fun _ =>
      { product_description := none, tabla := none, breadcrumb_links := [] } }

/-- Text-only tag, for sample breadcrumb trails. -/
def tagTexto (s : String) : Tag :=
  { attrs := [], classes := [], text := s }

/-- Sample detail page with a three-entry breadcrumb trail. -/
def paginaDemo : DetailPage :=
  { product_description := none, tabla := none,
    breadcrumb_links := [tagTexto "Home", tagTexto "Books", tagTexto "Poetry"] }

/-! Helper lemmas about the embedded definitions. -/

lemma keepPriceChars_data (s : String) :
    (keepPriceChars s).data = s.data.filter (fun c => c.isDigit || c == '.') := rfl

lemma keepPriceChars_any_digit (s : String) :
    (keepPriceChars s).data.any Char.isDigit = s.data.any Char.isDigit := by
  rw [keepPriceChars_data]
  cases h : s.data.any Char.isDigit
  · simp only [List.any_eq_false] at h ⊢
    intro c hc
    exact h c (List.mem_filter.mp hc).1
  · simp only [List.any_eq_true] at h ⊢
    obtain ⟨c, hc, hd⟩ := h
    exact ⟨c, List.mem_filter.mpr ⟨hc, by simp [hd]⟩, hd⟩

lemma keepPriceChars_count_dot (s : String) :
    (keepPriceChars s).data.count '.' = s.data.count '.' := by
  rw [keepPriceChars_data]
  exact List.count_filter (by simp)

lemma keepPriceChars_isEmpty_iff (s : String) :
    (keepPriceChars s).isEmpty = true ↔ (keepPriceChars s).data = [] := by
  rw [String.isEmpty_iff]
  constructor
  · intro h
    rw [h]
  · intro h
    exact String.ext h

lemma isEmpty_eq_false {u : String} (h : u ≠ "") : u.isEmpty = false := by
  cases hx : u.isEmpty
  · rfl
  · exact absurd ((String.isEmpty_iff u).mp hx) h

lemma findSome?_append_none {α β : Type} (f : α → Option β) (l1 l2 : List α)
    (h : ∀ c ∈ l1, f c = none) :
    (l1 ++ l2).findSome? f = l2.findSome? f := by
  rw [List.findSome?_append, List.findSome?_eq_none_iff.mpr h]
  rfl

lemma sinDuplicadosPor_append_bool (c : StoredBook → StoredBook → Bool)
    (l : List StoredBook) (b : StoredBook) :
    sinDuplicadosPor c (l ++ [b])
      = (sinDuplicadosPor c l && l.all (fun a => !c a b)) := by
  induction l with
  | nil => simp [sinDuplicadosPor]
  | cons x xs ih =>
    simp only [List.cons_append, sinDuplicadosPor, List.append_eq, List.all_append,
      List.all_cons, List.all_nil, ih]
    cases hxs : xs.all (fun y => !c x y) <;> cases hs : sinDuplicadosPor c xs <;>
      cases hb : xs.all (fun a => !c a b) <;> cases hcb : c x b <;> rfl

lemma sinDuplicadosPor_append (c : StoredBook → StoredBook → Bool)
    (l : List StoredBook) (b : StoredBook) :
    sinDuplicadosPor c (l ++ [b]) = true ↔
      (sinDuplicadosPor c l = true ∧ ∀ a ∈ l, c a b = false) := by
  rw [sinDuplicadosPor_append_bool]
  simp [List.all_eq_true]

lemma comparteUpcReal_eq_false {a b : StoredBook}
    (h : b.upc = none ∨ b.upc = some "" ∨ (a.upc == b.upc) = false) :
    comparteUpcReal a b = false := by
  rcases h with h | h | h
  · cases ha : a.upc <;> simp [comparteUpcReal, h, ha]
  · by_cases hx : a.upc = some "" <;> simp [comparteUpcReal, h, hx]
  · simp [comparteUpcReal, h]

lemma commitStep_skip (st : RunState) (libro : StoredBook)
    (h : (truthyStr libro.upc && existe_libro st.store libro.upc) = true) :
    commitStep st libro = st := by
  rw [commitStep, if_pos h]

lemma commitStep_insert (st : RunState) (libro : StoredBook)
    (h : (truthyStr libro.upc && existe_libro st.store libro.upc) = false) :
    (commitStep st libro).store = st.store ++ [libro] ∧
    (commitStep st libro).total_insertados = st.total_insertados + 1 ∧
    (commitStep st libro).total_detalles_ok = st.total_detalles_ok := by
  rw [commitStep, if_neg (by simp [h])]
  exact ⟨rfl, rfl, rfl⟩

lemma commitStep_preserva (st : RunState) (libro : StoredBook)
    (h : sinDuplicadosPor comparteUpcReal st.store = true) :
    sinDuplicadosPor comparteUpcReal (commitStep st libro).store = true := by
  rw [commitStep]
  by_cases hc : (truthyStr libro.upc && existe_libro st.store libro.upc) = true
  · rw [if_pos hc]
    exact h
  · rw [if_neg hc]
    refine (sinDuplicadosPor_append _ _ _).mpr ⟨h, ?_⟩
    intro a ha
    rcases hu : libro.upc with _ | u
    · exact comparteUpcReal_eq_false (Or.inl hu)
    · by_cases hue : u = ""
      · subst hue
        exact comparteUpcReal_eq_false (Or.inr (Or.inl hu))
      · have hie : u.isEmpty = false := isEmpty_eq_false hue
        have ht : truthyStr libro.upc = true := by
          rw [hu]
          simp [truthyStr, hie]
        have he : existe_libro st.store libro.upc = false := by
          cases hex : existe_libro st.store libro.upc
          · rfl
          · exact absurd (by rw [ht, hex]; rfl) hc
        rw [hu] at he
        simp only [existe_libro, hie, Bool.false_eq_true, if_false] at he
        have hne := List.any_eq_false.mp he a ha
        refine comparteUpcReal_eq_false (Or.inr (Or.inr ?_))
        rw [hu]
        cases hb : (a.upc == some u)
        · rfl
        · exact absurd hb hne

lemma procesar_libro_preserva (caps : Caps) (st : RunState) (libro : PartialBook)
    (h : sinDuplicadosPor comparteUpcReal st.store = true) :
    sinDuplicadosPor comparteUpcReal (procesar_libro caps st libro).store = true := by
  rw [procesar_libro]
  cases obtenerDetalle caps libro
  · exact commitStep_preserva _ _ h
  · exact commitStep_preserva _ _ h

lemma foldl_libros_preserva (caps : Caps) (libros : List PartialBook) (st : RunState)
    (h : sinDuplicadosPor comparteUpcReal st.store = true) :
    sinDuplicadosPor comparteUpcReal
      ((libros.foldl (procesar_libro caps) st).store) = true := by
  induction libros generalizing st with
  | nil => exact h
  | cons x xs ih => exact ih _ (procesar_libro_preserva caps st x h)

lemma procesar_pagina_preserva (caps : Caps) (st : RunState) (page : Nat)
    (h : sinDuplicadosPor comparteUpcReal st.store = true) :
    sinDuplicadosPor comparteUpcReal (procesar_pagina caps st page).store = true := by
  rw [procesar_pagina]
  cases caps.fetch (url_catalogo page)
  · exact h
  · rename_i html
    by_cases he : html.isEmpty = true
    · simp only [if_pos he]
      exact h
    · simp only [if_neg he]
      exact foldl_libros_preserva caps _ st h

lemma run_scraper_preserva (caps : Caps) (init : List StoredBook)
    (h : sinDuplicadosPor comparteUpcReal init = true) :
    sinDuplicadosPor comparteUpcReal (run_scraper caps init).store = true := by
  rw [run_scraper]
  simp only [List.foldl_cons, List.foldl_nil]
  exact procesar_pagina_preserva caps _ 3
    (procesar_pagina_preserva caps _ 2 (procesar_pagina_preserva caps _ 1 h))

/-! Claim theorems. -/

/-- Claim C1, counterexample to the claim as stated: starting from a
store whose single row has the (non-absent) empty-string UPC — a store
in which no two records share a non-absent UPC — committing a record
with that same non-absent UPC does not skip: it inserts a second copy,
so the claimed invariant is not preserved, and committing the same
non-absent UPC "" twice into an empty store leaves two stored records
with that UPC, not exactly one. -/
theorem claim_C1_counterexample :
    sinDuplicadosPor comparteUpcNoAusente [libroUpcVacio] = true ∧
    (commitStep { store := [libroUpcVacio], total_insertados := 0, total_detalles_ok := 0 }
        libroUpcVacio).store = [libroUpcVacio, libroUpcVacio] ∧
    sinDuplicadosPor comparteUpcNoAusente
      (commitStep { store := [libroUpcVacio], total_insertados := 0, total_detalles_ok := 0 }
        libroUpcVacio).store = false ∧
    cuentaUpc (commitStep
      (commitStep { store := [], total_insertados := 0, total_detalles_ok := 0 } libroUpcVacio)
      libroUpcVacio).store "" = 2 :=
  ⟨by decide, by decide, by decide, by decide⟩

/-- Claim C1 (amended: the preserved invariant keys on truthy UPCs —
present and non-empty — because the dedup check tests Python truthiness,
not mere presence): every commit step preserves the property that no two
stored records share the same truthy UPC, hence so does every
orchestrator run from a store with that property; a record whose UPC is
absent (or empty) is always inserted with no dedup check; and committing
the same non-empty UPC twice into a store not containing it leaves
exactly one stored record with that UPC. -/
theorem claim_C1_dedup_invariant :
    (∀ (st : RunState) (libro : StoredBook),
      sinDuplicadosPor comparteUpcReal st.store = true →
      sinDuplicadosPor comparteUpcReal (commitStep st libro).store = true) ∧
    (∀ (caps : Caps) (init : List StoredBook),
      sinDuplicadosPor comparteUpcReal init = true →
      sinDuplicadosPor comparteUpcReal (run_scraper caps init).store = true) ∧
    (∀ (st : RunState) (libro : StoredBook), truthyStr libro.upc = false →
      (commitStep st libro).store = st.store ++ [libro]) ∧
    (∀ (st : RunState) (libro : StoredBook) (u : String), u ≠ "" → libro.upc = some u →
      cuentaUpc st.store u = 0 →
      cuentaUpc (commitStep (commitStep st libro) libro).store u = 1) := by
  refine ⟨commitStep_preserva, run_scraper_preserva, ?_, ?_⟩
  · intro st libro h
    exact (commitStep_insert st libro (by rw [h]; rfl)).1
  · intro st libro u hu hupc hcount
    have hie : u.isEmpty = false := isEmpty_eq_false hu
    have ht : truthyStr libro.upc = true := by
      rw [hupc]
      simp [truthyStr, hie]
    have hany : st.store.any (fun b => b.upc == some u) = false := by
      rw [List.any_eq_false]
      intro b hb
      exact List.countP_eq_zero.mp hcount b hb
    have hex1 : existe_libro st.store libro.upc = false := by
      rw [hupc]
      simp [existe_libro, hie, hany]
    have hins := commitStep_insert st libro (by rw [ht, hex1]; rfl)
    have hex2 : existe_libro (commitStep st libro).store libro.upc = true := by
      rw [hupc, hins.1]
      simp [existe_libro, hie, hupc]
    have hskip := commitStep_skip (commitStep st libro) libro (by rw [ht, hex2]; rfl)
    rw [hskip, hins.1]
    simp only [cuentaUpc, List.countP_append] at *
    simp [hcount, List.countP_cons, hupc]

/-- Claim C1 witness: the amended theorem applied to concrete inputs —
one commit into the empty store preserves the truthy-UPC dedup property,
and committing the UPC "abc" twice into the empty store stores it
exactly once. -/
theorem claim_C1_witness :
    sinDuplicadosPor comparteUpcReal
      (commitStep { store := [], total_insertados := 0, total_detalles_ok := 0 }
        libroConUpcA).store = true ∧
    cuentaUpc (commitStep
      (commitStep { store := [], total_insertados := 0, total_detalles_ok := 0 } libroConUpcA)
      libroConUpcA).store "abc" = 1 :=
  ⟨claim_C1_dedup_invariant.1 _ libroConUpcA (by decide),
   claim_C1_dedup_invariant.2.2.2 _ libroConUpcA "abc" (by decide) rfl (by decide)⟩

/-- Claim C2, counterexample to the claim as stated: the raw price
string "1.2.3" contains digits, yet normalize returns absent, because
the stripped remainder has two periods and the numeric parse fails. -/
theorem claim_C2_counterexample :
    ("1.2.3".data.any Char.isDigit = true) ∧ normalizar_precio (some "1.2.3") = none :=
  ⟨by decide, by decide⟩

/-- Claim C2 (amended: the digit-bearing strings must also carry at most
one period, otherwise the numeric parse of the stripped remainder fails
and the result is absent): for every raw price string with at least one
digit and at most one period, normalize returns a non-negative numeric
value; for every raw price string with no digit, it returns absent. -/
theorem claim_C2_normalize_digits :
    (∀ s : String, s.data.any Char.isDigit = true → s.data.count '.' ≤ 1 →
      ∃ q : ℚ, normalizar_precio (some s) = some q ∧ 0 ≤ q) ∧
    (∀ s : String, s.data.any Char.isDigit = false →
      normalizar_precio (some s) = none) := by
  constructor
  · intro s hdig hdot
    have hne : s.isEmpty = false := by
      cases h : s.isEmpty
      · rfl
      · rw [String.isEmpty_iff] at h
        subst h
        simp at hdig
    have hkd : (keepPriceChars s).data.any Char.isDigit = true := by
      rw [keepPriceChars_any_digit]
      exact hdig
    have hkne : (keepPriceChars s).isEmpty = false := by
      cases h : (keepPriceChars s).isEmpty
      · rfl
      · exfalso
        have hd := (keepPriceChars_isEmpty_iff s).mp h
        rw [hd] at hkd
        simp at hkd
    have hkc : (keepPriceChars s).data.count '.' ≤ 1 := by
      rw [keepPriceChars_count_dot]
      exact hdot
    refine ⟨(digitsToNat (parteEntera (keepPriceChars s)) : ℚ) +
      (digitsToNat (parteFraccion (keepPriceChars s)) : ℚ) /
        (10 : ℚ) ^ (parteFraccion (keepPriceChars s)).length, ?_, ?_⟩
    · simp only [normalizar_precio, floatOfStripped, hne, hkne, Bool.false_eq_true,
        if_false]
      rw [if_pos]
      rw [Bool.and_eq_true]
      exact ⟨hkd, decide_eq_true hkc⟩
    · positivity
  · intro s hnd
    cases h : s.isEmpty
    · cases h2 : (keepPriceChars s).isEmpty
      · have hkd : (keepPriceChars s).data.any Char.isDigit = false := by
          rw [keepPriceChars_any_digit]
          exact hnd
        simp [normalizar_precio, h, h2, floatOfStripped, hkd]
      · simp [normalizar_precio, h, h2]
    · simp [normalizar_precio, h]

/-- Claim C2 witness: the amended theorem applied to the concrete
strings "£51.77" (one digit at least, one period) and "Free" (no
digit). -/
theorem claim_C2_witness :
    (∃ q : ℚ, normalizar_precio (some "£51.77") = some q ∧ 0 ≤ q) ∧
    normalizar_precio (some "Free") = none :=
  ⟨claim_C2_normalize_digits.1 "£51.77" (by decide) (by decide),
   claim_C2_normalize_digits.2 "Free" (by decide)⟩

/-- Claim C3: for every record whose detail-page fetch fails, or that
has no detail address, the orchestrator still reaches the commit
attempt with description, UPC and category all absent; the absent UPC
makes the dedup check a no-op, so the record is inserted into any store
whatsoever (in particular one already holding its real UPC), and the
detail-success counter is not bumped while the insert counter is. -/
theorem claim_C3_failed_detail_insert :
    ∀ (caps : Caps) (st : RunState) (libro : PartialBook),
      (libro.detail_url = none ∨
        ∃ durl, libro.detail_url = some durl ∧ caps.fetch durl = none) →
      (procesar_libro caps st libro).store
          = st.store ++ [completar libro none none none] ∧
      (procesar_libro caps st libro).total_detalles_ok = st.total_detalles_ok ∧
      (procesar_libro caps st libro).total_insertados = st.total_insertados + 1 := by
  intro caps st libro h
  have hdet : obtenerDetalle caps libro = none := by
    rcases h with h | ⟨durl, hd, hf⟩
    · simp [obtenerDetalle, h]
    · simp [obtenerDetalle, hd, hf]
  have hc : (truthyStr (completar libro none none none).upc &&
      existe_libro st.store (completar libro none none none).upc) = false := rfl
  have hins := commitStep_insert st (completar libro none none none) hc
  rw [procesar_libro, hdet]
  exact ⟨hins.1, hins.2.2, hins.2.1⟩

/-- Claim C3 witness: the theorem applied to the always-failing fetcher,
a store already holding the UPC "abc", and a record with a detail
address: the record is still appended with all detail fields absent. -/
theorem claim_C3_witness :
    (procesar_libro capsNada
        { store := [libroConUpcA], total_insertados := 0, total_detalles_ok := 0 }
        libroParcialDemo).store
      = [libroConUpcA] ++ [completar libroParcialDemo none none none] ∧
    (procesar_libro capsNada
        { store := [libroConUpcA], total_insertados := 0, total_detalles_ok := 0 }
        libroParcialDemo).total_detalles_ok = 0 ∧
    (procesar_libro capsNada
        { store := [libroConUpcA], total_insertados := 0, total_detalles_ok := 0 }
        libroParcialDemo).total_insertados = 0 + 1 :=
  claim_C3_failed_detail_insert capsNada _ libroParcialDemo
    (Or.inr ⟨"https://books.toscrape.com/catalogue/x.html", rfl, rfl⟩)

/-- Claim C4, counterexample to the claim as stated: the export's header
row is not the field names in store-column order — it omits url_imagen,
descripcion and fecha_extraccion, and lists categoria before upc,
whereas the libros table declares upc before categoria. -/
theorem claim_C4_counterexample :
    exportHeaders ≠ librosColumns ∧
    exportHeaders ≠ librosColumns.filter (fun c => exportHeaders.contains c) ∧
    librosColumns.filter (fun c => exportHeaders.contains c)
      = ["id", "titulo", "precio", "disponibilidad", "rating", "upc", "categoria"] :=
  ⟨by decide, by decide, by decide⟩

/-- Claim C4 (amended: the header row holds the seven selected field
names in the order of the export query's SELECT list — id, titulo,
precio, disponibilidad, rating, categoria, upc — which differs from
store-column order in omitting three columns and transposing categoria
and upc): the export reads the first 10 stored records ordered by
surrogate identifier, writes the header row followed by the data rows
to the comma-separated file, mirrors the same data rows to the console
listing, and performs no write to the store. -/
theorem claim_C4_export_first_10 :
    ∀ store : List StoredBook,
      (exportar_primeros_10 store).1 = store ∧
      (exportar_primeros_10 store).2.2
        = (exportHeaders.map Cell.text) :: (exportar_primeros_10 store).2.1 ∧
      (exportar_primeros_10 store).2.1 = consultaPrimeros10 store ∧
      (∀ i : Nat, i < 10 →
        (consultaPrimeros10 store)[i]? = (store[i]?).map (fun b => filaExport (i + 1) b)) ∧
      (∀ i : Nat, 10 ≤ i → (consultaPrimeros10 store)[i]? = none) := by
  intro store
  refine ⟨rfl, rfl, rfl, ?_, ?_⟩
  · intro i hi
    rw [consultaPrimeros10, List.getElem?_take_of_lt hi, List.getElem?_map]
    rw [List.enum, List.getElem?_enumFrom]
    cases store[i]? <;> simp
  · intro i hi
    rw [consultaPrimeros10]
    refine List.getElem?_eq_none ?_
    have := List.length_take 10 (store.enum.map (fun p => filaExport (p.1 + 1) p.2))
    omega

/-- Claim C4 witness: the amended theorem applied to a one-row store,
reading off its only export row and the emptiness of row 10. -/
theorem claim_C4_witness :
    (consultaPrimeros10 [libroConUpcA])[0]?
        = ([libroConUpcA][0]?).map (fun b => filaExport (0 + 1) b) ∧
    (consultaPrimeros10 [libroConUpcA])[10]? = none :=
  ⟨(claim_C4_export_first_10 [libroConUpcA]).2.2.2.1 0 (by decide),
   (claim_C4_export_first_10 [libroConUpcA]).2.2.2.2 10 (by decide)⟩

/-- Claim C5: parse_listing yields exactly one partial record per item
unit in document order (position i of the output comes from position i
of the input), the empty page yields the empty sequence, and each
sub-element is extracted independently: removing the title link only
blanks the title and drops the detail address, and removing the price,
availability, star-rating or image node only blanks its own field,
leaving every other field of that unit and every other unit intact. -/
theorem claim_C5_parse_listing_fault_tolerant :
    (∀ arts : List Article, (parsear_libros_catalogo arts).length = arts.length) ∧
    parsear_libros_catalogo [] = [] ∧
    (∀ (arts : List Article) (i : Nat),
      (parsear_libros_catalogo arts)[i]? = (arts[i]?).map parsear_articulo) ∧
    (∀ a : Article, parsear_articulo { a with h3_a := none } =
      { parsear_articulo a with titulo := "", detail_url := none }) ∧
    (∀ a : Article, parsear_articulo { a with p_price_color := none } =
      { parsear_articulo a with precio := none }) ∧
    (∀ a : Article, parsear_articulo { a with p_instock_availability := none } =
      { parsear_articulo a with disponibilidad := none }) ∧
    (∀ a : Article, parsear_articulo { a with p_star_rating := none } =
      { parsear_articulo a with rating := none }) ∧
    (∀ a : Article, parsear_articulo { a with div_image_container_img := none } =
      { parsear_articulo a with url_imagen := none }) := by
  refine ⟨?_, rfl, ?_, ?_, ?_, ?_, ?_, ?_⟩
  · intro arts
    simp [parsear_libros_catalogo]
  · intro arts i
    simp [parsear_libros_catalogo, List.getElem?_map]
  · intro a
    rfl
  · intro a
    rfl
  · intro a
    rfl
  · intro a
    rfl
  · intro a
    rfl

/-- Claim C6: the extracted rating comes from the fixed total mapping
One to 1 through Five to 5 — every key maps as listed and every other
string maps to nothing — applied to the first class of the star-rating
node that matches a known label (first match wins, later matches are
never consulted); when no class matches, or the node is missing, the
rating is absent. -/
theorem claim_C6_rating_first_match :
    (RATING_MAP.lookup "One" = some 1 ∧ RATING_MAP.lookup "Two" = some 2 ∧
     RATING_MAP.lookup "Three" = some 3 ∧ RATING_MAP.lookup "Four" = some 4 ∧
     RATING_MAP.lookup "Five" = some 5) ∧
    (∀ c : String, c ≠ "One" → c ≠ "Two" → c ≠ "Three" → c ≠ "Four" → c ≠ "Five" →
      RATING_MAP.lookup c = none) ∧
    (∀ (a : Article) (t : Tag), a.p_star_rating = some t →
      (parsear_articulo a).rating = ratingDeClases t.classes) ∧
    (∀ (pre post : List String) (k : String) (v : Nat),
      (∀ c ∈ pre, RATING_MAP.lookup c = none) → RATING_MAP.lookup k = some v →
      ratingDeClases (pre ++ k :: post) = some v) ∧
    (∀ clases : List String, (∀ c ∈ clases, RATING_MAP.lookup c = none) →
      ratingDeClases clases = none) ∧
    (∀ a : Article, a.p_star_rating = none → (parsear_articulo a).rating = none) := by
  refine ⟨⟨by decide, by decide, by decide, by decide, by decide⟩, ?_, ?_, ?_, ?_, ?_⟩
  · intro c h1 h2 h3 h4 h5
    have e1 : (c == "One") = false := beq_eq_false_iff_ne.mpr h1
    have e2 : (c == "Two") = false := beq_eq_false_iff_ne.mpr h2
    have e3 : (c == "Three") = false := beq_eq_false_iff_ne.mpr h3
    have e4 : (c == "Four") = false := beq_eq_false_iff_ne.mpr h4
    have e5 : (c == "Five") = false := beq_eq_false_iff_ne.mpr h5
    simp [RATING_MAP, List.lookup, e1, e2, e3, e4, e5]
  · intro a t h
    simp [parsear_articulo, h]
  · intro pre post k v hpre hk
    rw [ratingDeClases, findSome?_append_none _ _ _ hpre,
      List.findSome?_cons_of_isSome _ (by simp [hk]), hk]
  · intro clases h
    exact List.findSome?_eq_none_iff.mpr h
  · intro a h
    simp [parsear_articulo, h]

/-- Claim C6 witness: the theorem applied to the concrete class list
star-rating, Three — the non-matching class is passed over and the
first known label Three wins, giving rating 3. -/
theorem claim_C6_witness :
    ratingDeClases (["star-rating"] ++ "Three" :: []) = some 3 :=
  claim_C6_rating_first_match.2.2.2.1 ["star-rating"] [] "Three" 3
    (by decide) (by decide)

/-- Claim C7: parse_detail returns as category the text of the last
breadcrumb entry whenever the trail has at least 3 entries — with
exactly 3 entries that is the text of entry 3 — and returns category
absent whenever the trail has fewer than 3 entries; the category
extraction is unaffected by the description and UPC parts of the
page. -/
theorem claim_C7_breadcrumb_category :
    (∀ p : DetailPage, 3 ≤ p.breadcrumb_links.length →
      (parsear_detalle p).categoria
        = p.breadcrumb_links.getLast?.map (fun t => t.text.trim)) ∧
    (∀ p : DetailPage, p.breadcrumb_links.length < 3 →
      (parsear_detalle p).categoria = none) ∧
    (∀ p : DetailPage, p.breadcrumb_links.length = 3 →
      (parsear_detalle p).categoria
        = (p.breadcrumb_links[2]?).map (fun t => t.text.trim)) ∧
    (∀ (p : DetailPage) (dh : Option DescHeader) (tb : Option (List TableRow)),
      (parsear_detalle { p with product_description := dh, tabla := tb }).categoria
        = (parsear_detalle p).categoria) := by
  refine ⟨?_, ?_, ?_, ?_⟩
  · intro p h
    simp [parsear_detalle, if_pos h]
  · intro p h
    simp only [parsear_detalle]
    rw [if_neg (by omega)]
  · intro p h
    have h3 : 3 ≤ p.breadcrumb_links.length := by omega
    simp only [parsear_detalle, if_pos h3]
    rw [List.getLast?_eq_getElem?, h]
  · intro p dh tb
    rfl

/-- Claim C7 witness: the theorem applied to a concrete page whose
breadcrumb trail is Home, Books, Poetry — the category is the text of
entry 3 — and to the same page cut to two entries, where the category
is absent. -/
theorem claim_C7_witness :
    (parsear_detalle paginaDemo).categoria
        = (paginaDemo.breadcrumb_links[2]?).map (fun t => t.text.trim) ∧
    (parsear_detalle { paginaDemo with
        breadcrumb_links := [tagTexto "Home", tagTexto "Books"] }).categoria = none :=
  ⟨claim_C7_breadcrumb_category.2.2.1 paginaDemo rfl,
   claim_C7_breadcrumb_category.2.1 _ (by decide)⟩

/-- Claim C8: normalize is total (it is a function in this model, so it
never raises); it strips every character that is not a digit or a
period, returns absent for an absent or empty input, absent when
nothing remains after stripping, and absent when the numeric parse of
the remainder fails; on the concrete inputs, normalize of "£51.77" is
51.77, of "" is absent, and of "Free" is absent. -/
theorem claim_C8_normalize_never_raises :
    normalizar_precio none = none ∧
    normalizar_precio (some "") = none ∧
    normalizar_precio (some "£51.77") = some (51.77 : ℚ) ∧
    normalizar_precio (some "Free") = none ∧
    (∀ s : String,
      (keepPriceChars s).data = s.data.filter (fun c => c.isDigit || c == '.')) ∧
    (∀ s : String, (keepPriceChars s).data = [] → normalizar_precio (some s) = none) ∧
    (∀ s : String, floatOfStripped (keepPriceChars s) = none →
      normalizar_precio (some s) = none) := by
  refine ⟨rfl, rfl, ?_, by decide, keepPriceChars_data, ?_, ?_⟩
  · have h1 : normalizar_precio (some "£51.77")
        = some ((digitsToNat ['5','1'] : ℚ) + (digitsToNat ['7','7'] : ℚ) / (10 : ℚ) ^ 2) :=
      rfl
    have d1 : digitsToNat ['5','1'] = 51 := by decide
    have d2 : digitsToNat ['7','7'] = 77 := by decide
    rw [h1, d1, d2]
    norm_num
  · intro s hk
    cases h : s.isEmpty
    · have h2 : (keepPriceChars s).isEmpty = true := (keepPriceChars_isEmpty_iff s).mpr hk
      simp [normalizar_precio, h, h2]
    · simp [normalizar_precio, h]
  · intro s hf
    cases h : s.isEmpty
    · cases h2 : (keepPriceChars s).isEmpty
      · simp [normalizar_precio, h, h2, hf]
      · simp [normalizar_precio, h, h2]
    · simp [normalizar_precio, h]

/-- Claim C8 witness: the theorem applied to the concrete string "abc",
whose stripped remainder is empty, so normalize returns absent. -/
theorem claim_C8_witness : normalizar_precio (some "abc") = none :=
  claim_C8_normalize_never_raises.2.2.2.2.2.1 "abc" (by decide)

/-- Claim C9: for every record whose UPC field is the empty string, the
store existence check returns false outright — its early falsy-UPC exit
fires before any query — so the commit step always inserts such a
record, exactly as it does for an absent UPC, regardless of what the
store already holds (in particular other empty-string-UPC rows). -/
theorem claim_C9_empty_upc_no_dedup :
    (∀ store : List StoredBook, existe_libro store (some "") = false) ∧
    (∀ (st : RunState) (libro : StoredBook), libro.upc = some "" →
      (commitStep st libro).store = st.store ++ [libro] ∧
      (commitStep st libro).total_insertados = st.total_insertados + 1) := by
  constructor
  · intro store
    rfl
  · intro st libro h
    have hc : (truthyStr libro.upc && existe_libro st.store libro.upc) = false := by
      rw [h]
      rfl
    exact ⟨(commitStep_insert st libro hc).1, (commitStep_insert st libro hc).2.1⟩

/-- Claim C9 witness: the theorem applied to a store that already holds
an empty-string-UPC row — the existence check still answers false and a
second empty-string-UPC row is inserted. -/
theorem claim_C9_witness :
    existe_libro [libroUpcVacio] (some "") = false ∧
    (commitStep { store := [libroUpcVacio], total_insertados := 0, total_detalles_ok := 0 }
        libroUpcVacio).store = [libroUpcVacio] ++ [libroUpcVacio] :=
  ⟨claim_C9_empty_upc_no_dedup.1 [libroUpcVacio],
   (claim_C9_empty_upc_no_dedup.2 _ libroUpcVacio rfl).1⟩

/-- Claim C10: a fetch that succeeds with an empty body is treated like
a transport failure: an empty catalogue body makes the page loop leave
the state untouched, exactly as a failed fetch does; an empty detail
body leaves description, UPC and category absent (the record is still
committed) and does not bump the successful-detail counter, and the
whole per-record step is equal to the one run with a failing
fetcher. -/
theorem claim_C10_empty_body_as_failure :
    (∀ (caps : Caps) (st : RunState) (page : Nat),
      caps.fetch (url_catalogo page) = some "" → procesar_pagina caps st page = st) ∧
    (∀ (caps : Caps) (st : RunState) (page : Nat),
      caps.fetch (url_catalogo page) = none → procesar_pagina caps st page = st) ∧
    (∀ (caps : Caps) (st : RunState) (libro : PartialBook) (durl : String),
      libro.detail_url = some durl → caps.fetch durl = some "" →
      (procesar_libro caps st libro).store = st.store ++ [completar libro none none none] ∧
      (procesar_libro caps st libro).total_detalles_ok = st.total_detalles_ok ∧
      (procesar_libro caps st libro).total_insertados = st.total_insertados + 1) ∧
    (∀ (caps caps2 : Caps) (st : RunState) (libro : PartialBook) (durl : String),
      libro.detail_url = some durl → caps.fetch durl = some "" → caps2.fetch durl = none →
      procesar_libro caps st libro = procesar_libro caps2 st libro) := by
  refine ⟨?_, ?_, ?_, ?_⟩
  · intro caps st page h
    simp [procesar_pagina, h, show ("" : String).isEmpty = true from rfl]
  · intro caps st page h
    simp [procesar_pagina, h]
  · intro caps st libro durl hd hf
    have hdet : obtenerDetalle caps libro = none := by
      simp [obtenerDetalle, hd, hf, show ("" : String).isEmpty = true from rfl]
    have hc : (truthyStr (completar libro none none none).upc &&
        existe_libro st.store (completar libro none none none).upc) = false := rfl
    have hins := commitStep_insert st (completar libro none none none) hc
    rw [procesar_libro, hdet]
    exact ⟨hins.1, hins.2.2, hins.2.1⟩
  · intro caps caps2 st libro durl hd hf hf2
    have hdet : obtenerDetalle caps libro = none := by
      simp [obtenerDetalle, hd, hf, show ("" : String).isEmpty = true from rfl]
    have hdet2 : obtenerDetalle caps2 libro = none := by
      simp [obtenerDetalle, hd, hf2]
    rw [procesar_libro, hdet, procesar_libro, hdet2]

/-- Claim C10 witness: the theorem applied to the empty-body fetcher —
the page step leaves the initial state untouched, and the per-record
step on a record with a detail address equals the per-record step run
with the failing fetcher. -/
theorem claim_C10_witness :
    procesar_pagina capsCuerpoVacio
        { store := [], total_insertados := 0, total_detalles_ok := 0 } 1
      = { store := [], total_insertados := 0, total_detalles_ok := 0 } ∧
    procesar_libro capsCuerpoVacio
        { store := [], total_insertados := 0, total_detalles_ok := 0 } libroParcialDemo
      = procesar_libro capsNada
        { store := [], total_insertados := 0, total_detalles_ok := 0 } libroParcialDemo :=
  ⟨claim_C10_empty_body_as_failure.1 capsCuerpoVacio _ 1 rfl,
   claim_C10_empty_body_as_failure.2.2.2 capsCuerpoVacio capsNada _ libroParcialDemo
     "https://books.toscrape.com/catalogue/x.html" rfl rfl rfl⟩

end BooksScraper
